import Mathlib

/-!
Verification of the Zelash conversation core.

This file gives a shallow embedding, in Lean 4, of the conversation phase
state machine of `src/components/ChatInput.tsx` (the `ChatInterfaceComponent`
version, lines 808-1573 of the concatenated file) and of the plan-extraction
algorithm `parsePlanFromGeminiResponse` of the Gemini client module
(`src/unnamed/part_000`).

Modelling conventions:
  * JavaScript strings are Lean `String`s; all character-level operations are
    defined on `List Char` and lifted.
  * `JSON.parse` is modelled by `parseJson` below, a strict JSON parser that
    returns `none` exactly when `JSON.parse` would throw.  Number tokens keep
    their source lexeme; `\u` escapes are decoded to the code point when it is
    a valid `Char` scalar value.
  * The two JSON-block regular expressions and the question-progress regular
    expression are embedded token-for-token from the literal bytes of the
    source files.  Note that the source bytes contain literal double
    backslashes (e.g. `\\s`), so in the actual regular expressions `\\`
    matches one literal backslash character and `s` is the letter `s`.
    The matcher `patSearch` implements the JavaScript leftmost-match,
    greedy-with-backtracking semantics for the token shapes these three
    patterns use.
  * React `useState` state is gathered into `ChatState`; each event handler
    becomes a pure function from the pre-state, the event payload, and the
    outcomes of the external calls it awaits, to a post-state plus a trace of
    external calls made and of every value passed to `setChatPhase`.
  * `Date.now()`-based message id suffixes are dropped; a message keeps the
    deterministic id prefix from the source as its `mid`, which is what the
    in-handler `filter(m => m.id !== ...)` removals key on.
  * `timestamp` fields (wall-clock) are omitted.
-/

/-! ## JavaScript string primitives -/

/-- ASCII lower-casing of one character, the fragment of
`String.prototype.toLowerCase` exercised by the embedded code. -/
def asciiLowerChar (c : Char) : Char :=
  if 'A' ≤ c ∧ c ≤ 'Z' then Char.ofNat (c.toNat + 32) else c

/-- `String.prototype.toLowerCase` (ASCII fragment). -/
def asciiLowerS (s : String) : String :=
  ⟨s.data.map asciiLowerChar⟩

/-- The whitespace characters recognised by `String.prototype.trim`
(ASCII fragment plus NBSP). -/
def jsWhitespaceChar (c : Char) : Bool :=
  c = ' ' ∨ c = '\t' ∨ c = '\n' ∨ c = '\r' ∨ c = Char.ofNat 11 ∨
    c = Char.ofNat 12 ∨ c = Char.ofNat 160

/-- Trim on character lists: drop leading and trailing JS whitespace. -/
def trimChars (l : List Char) : List Char :=
  ((l.dropWhile jsWhitespaceChar).reverse.dropWhile jsWhitespaceChar).reverse

/-- `String.prototype.trim`. -/
def jsTrimS (s : String) : String :=
  ⟨trimChars s.data⟩

/-- Does `pat` occur as a contiguous sublist starting at the head of `l`? -/
def listStartsWith : List Char → List Char → Bool
  | [], _ => true
  | _ :: _, [] => false
  | p :: ps, c :: cs => p = c && listStartsWith ps cs

/-- First index at which `pat` occurs in `l`, if any
(`String.prototype.indexOf`, with `none` for `-1`). -/
def indexOfChars (pat : List Char) : List Char → Option Nat
  | [] => if pat.isEmpty then some 0 else none
  | c :: cs =>
    if listStartsWith pat (c :: cs) then some 0
    else (indexOfChars pat cs).map (· + 1)

/-- `String.prototype.includes`. -/
def containsS (s pat : String) : Bool :=
  (indexOfChars pat.data s.data).isSome

/-- `String.prototype.indexOf`, `none` standing for `-1`. -/
def indexOfS (s pat : String) : Option Nat :=
  indexOfChars pat.data s.data

/-- `s.substring(0, j)`. -/
def substrTo (s : String) (j : Nat) : String :=
  ⟨s.data.take j⟩

/-- `s.substring(j)`. -/
def substrFrom (s : String) (j : Nat) : String :=
  ⟨s.data.drop j⟩

/-! ## JSON values and `JSON.parse` -/

/-- JSON values.  A number keeps its source lexeme (the embedded code never
computes with numeric values, only stores and re-serialises them). -/
inductive Json where
  | null : Json
  | bool (b : Bool) : Json
  | num (lexeme : String) : Json
  | str (s : String) : Json
  | arr (items : List Json) : Json
  | obj (fields : List (String × Json)) : Json
deriving Repr

mutual

/-- Structural equality on JSON values. -/
def Json.beq : Json → Json → Bool
  | .null, .null => true
  | .bool a, .bool b => a = b
  | .num a, .num b => a = b
  | .str a, .str b => a = b
  | .arr a, .arr b => Json.beqList a b
  | .obj a, .obj b => Json.beqFields a b
  | _, _ => false

def Json.beqList : List Json → List Json → Bool
  | [], [] => true
  | a :: as, b :: bs => Json.beq a b && Json.beqList as bs
  | _, _ => false

def Json.beqFields : List (String × Json) → List (String × Json) → Bool
  | [], [] => true
  | (ka, va) :: as, (kb, vb) :: bs => ka = kb && Json.beq va vb && Json.beqFields as bs
  | _, _ => false

end

instance : BEq Json := ⟨Json.beq⟩

mutual

theorem Json.beq_refl : ∀ j : Json, Json.beq j j = true
  | .null => rfl
  | .bool b => by simp [Json.beq]
  | .num a => by simp [Json.beq]
  | .str a => by simp [Json.beq]
  | .arr a => by simpa [Json.beq] using Json.beqList_refl a
  | .obj a => by simpa [Json.beq] using Json.beqFields_refl a

theorem Json.beqList_refl : ∀ l : List Json, Json.beqList l l = true
  | [] => rfl
  | a :: as => by simp [Json.beqList, Json.beq_refl a, Json.beqList_refl as]

theorem Json.beqFields_refl : ∀ l : List (String × Json), Json.beqFields l l = true
  | [] => rfl
  | (k, v) :: as => by simp [Json.beqFields, Json.beq_refl v, Json.beqFields_refl as]

end

mutual

theorem Json.eq_of_beq : ∀ {a b : Json}, Json.beq a b = true → a = b
  | .null, .null, _ => rfl
  | .bool _, .bool _, h => by simpa [Json.beq] using congrArg Json.bool (by simpa [Json.beq] using h)
  | .num _, .num _, h => by exact congrArg Json.num (by simpa [Json.beq] using h)
  | .str _, .str _, h => by exact congrArg Json.str (by simpa [Json.beq] using h)
  | .arr a, .arr b, h => by
      exact congrArg Json.arr (Json.eqList_of_beq (by simpa [Json.beq] using h))
  | .obj a, .obj b, h => by
      exact congrArg Json.obj (Json.eqFields_of_beq (by simpa [Json.beq] using h))
  | .null, .bool _, h => by simp [Json.beq] at h
  | .null, .num _, h => by simp [Json.beq] at h
  | .null, .str _, h => by simp [Json.beq] at h
  | .null, .arr _, h => by simp [Json.beq] at h
  | .null, .obj _, h => by simp [Json.beq] at h
  | .bool _, .null, h => by simp [Json.beq] at h
  | .bool _, .num _, h => by simp [Json.beq] at h
  | .bool _, .str _, h => by simp [Json.beq] at h
  | .bool _, .arr _, h => by simp [Json.beq] at h
  | .bool _, .obj _, h => by simp [Json.beq] at h
  | .num _, .null, h => by simp [Json.beq] at h
  | .num _, .bool _, h => by simp [Json.beq] at h
  | .num _, .str _, h => by simp [Json.beq] at h
  | .num _, .arr _, h => by simp [Json.beq] at h
  | .num _, .obj _, h => by simp [Json.beq] at h
  | .str _, .null, h => by simp [Json.beq] at h
  | .str _, .bool _, h => by simp [Json.beq] at h
  | .str _, .num _, h => by simp [Json.beq] at h
  | .str _, .arr _, h => by simp [Json.beq] at h
  | .str _, .obj _, h => by simp [Json.beq] at h
  | .arr _, .null, h => by simp [Json.beq] at h
  | .arr _, .bool _, h => by simp [Json.beq] at h
  | .arr _, .num _, h => by simp [Json.beq] at h
  | .arr _, .str _, h => by simp [Json.beq] at h
  | .arr _, .obj _, h => by simp [Json.beq] at h
  | .obj _, .null, h => by simp [Json.beq] at h
  | .obj _, .bool _, h => by simp [Json.beq] at h
  | .obj _, .num _, h => by simp [Json.beq] at h
  | .obj _, .str _, h => by simp [Json.beq] at h
  | .obj _, .arr _, h => by simp [Json.beq] at h

theorem Json.eqList_of_beq : ∀ {a b : List Json}, Json.beqList a b = true → a = b
  | [], [], _ => rfl
  | [], _ :: _, h => by simp [Json.beqList] at h
  | _ :: _, [], h => by simp [Json.beqList] at h
  | a :: as, b :: bs, h => by
      have h' := h
      simp only [Json.beqList, Bool.and_eq_true] at h'
      exact by rw [Json.eq_of_beq h'.1, Json.eqList_of_beq h'.2]

theorem Json.eqFields_of_beq :
    ∀ {a b : List (String × Json)}, Json.beqFields a b = true → a = b
  | [], [], _ => rfl
  | [], _ :: _, h => by simp [Json.beqFields] at h
  | _ :: _, [], h => by simp [Json.beqFields] at h
  | (ka, va) :: as, (kb, vb) :: bs, h => by
      have h' := h
      simp only [Json.beqFields, Bool.and_eq_true, decide_eq_true_eq] at h'
      exact by rw [h'.1.1, Json.eq_of_beq h'.1.2, Json.eqFields_of_beq h'.2]

end

instance : LawfulBEq Json where
  rfl := Json.beq_refl _
  eq_of_beq := Json.eq_of_beq

instance : DecidableEq Json := fun a b =>
  decidable_of_iff (Json.beq a b = true) ⟨Json.eq_of_beq, fun h => h ▸ Json.beq_refl a⟩

/-! ### `JSON.parse` -/

/-- JSON insignificant whitespace (space, tab, line feed, carriage return). -/
def jsonWs (c : Char) : Bool :=
  c = ' ' ∨ c = '\t' ∨ c = '\n' ∨ c = '\r'

/-- Skip JSON whitespace. -/
def skipWs (l : List Char) : List Char :=
  l.dropWhile jsonWs

/-- Hexadecimal digit value. -/
def hexVal (c : Char) : Option Nat :=
  if '0' ≤ c ∧ c ≤ '9' then some (c.toNat - '0'.toNat)
  else if 'a' ≤ c ∧ c ≤ 'f' then some (c.toNat - 'a'.toNat + 10)
  else if 'A' ≤ c ∧ c ≤ 'F' then some (c.toNat - 'A'.toNat + 10)
  else none

/-- Body of a JSON string literal, called after the opening quote; returns the
decoded characters and the remainder after the closing quote. -/
def parseStrBody : Nat → List Char → Option (List Char × List Char)
  | 0, _ => none
  | _ + 1, [] => none
  | fuel + 1, c :: rest =>
    if c = '"' then some ([], rest)
    else if c = '\\' then
      match rest with
      | [] => none
      | e :: r =>
        let cont (d : Char) (r' : List Char) : Option (List Char × List Char) :=
          (parseStrBody fuel r').map (fun p => (d :: p.1, p.2))
        if e = '"' then cont '"' r
        else if e = '\\' then cont '\\' r
        else if e = '/' then cont '/' r
        else if e = 'b' then cont (Char.ofNat 8) r
        else if e = 'f' then cont (Char.ofNat 12) r
        else if e = 'n' then cont '\n' r
        else if e = 'r' then cont '\r' r
        else if e = 't' then cont '\t' r
        else if e = 'u' then
          match r with
          | h1 :: h2 :: h3 :: h4 :: r' =>
            match hexVal h1, hexVal h2, hexVal h3, hexVal h4 with
            | some a, some b, some c', some d =>
              cont (Char.ofNat (((a * 16 + b) * 16 + c') * 16 + d)) r'
            | _, _, _, _ => none
          | _ => none
        else none
    else if c.toNat < 32 then none
    else (parseStrBody fuel rest).map (fun p => (c :: p.1, p.2))

/-- Digit span. -/
def spanDigits (l : List Char) : List Char × List Char :=
  (l.takeWhile Char.isDigit, l.dropWhile Char.isDigit)

/-- JSON number integer part (`0 | [1-9][0-9]*`). -/
def lexIntPart : List Char → Option (List Char × List Char)
  | [] => none
  | c :: r =>
    if c = '0' then some (['0'], r)
    else if c.isDigit then
      let (ds, r2) := spanDigits r
      some (c :: ds, r2)
    else none

/-- JSON number fraction part (`(. [0-9]+)?`); a dot with no digit fails. -/
def lexFracPart : List Char → Option (List Char × List Char)
  | '.' :: r =>
    let (ds, r2) := spanDigits r
    if ds.isEmpty then none else some ('.' :: ds, r2)
  | l => some ([], l)

/-- JSON number exponent part (`([eE] [+-]? [0-9]+)?`). -/
def lexExpPart : List Char → Option (List Char × List Char)
  | [] => some ([], [])
  | c :: r =>
    if c = 'e' ∨ c = 'E' then
      let (sgn, r2) : List Char × List Char :=
        match r with
        | s :: r3 => if s = '+' ∨ s = '-' then ([s], r3) else ([], r)
        | [] => ([], r)
      let (ds, r4) := spanDigits r2
      if ds.isEmpty then none else some (c :: sgn ++ ds, r4)
    else some ([], c :: r)

/-- JSON number lexeme starting at the head of `l` (grammar
`-? (0 | [1-9][0-9]*) (. [0-9]+)? ([eE] [+-]? [0-9]+)?`). -/
def parseNumLexeme (l : List Char) : Option (List Char × List Char) := do
  let (sign, l1) : List Char × List Char :=
    match l with
    | '-' :: r => (['-'], r)
    | _ => ([], l)
  let (ip, l2) ← lexIntPart l1
  let (fp, l3) ← lexFracPart l2
  let (ep, l4) ← lexExpPart l3
  pure (sign ++ ip ++ fp ++ ep, l4)

mutual

/-- A JSON value starting (after whitespace) at the head of the input. -/
def parseValue : Nat → List Char → Option (Json × List Char)
  | 0, _ => none
  | fuel + 1, l =>
    match skipWs l with
    | [] => none
    | c :: rest =>
      if c = 'n' then
        if listStartsWith ['u', 'l', 'l'] rest then some (Json.null, rest.drop 3) else none
      else if c = 't' then
        if listStartsWith ['r', 'u', 'e'] rest then some (Json.bool true, rest.drop 3) else none
      else if c = 'f' then
        if listStartsWith ['a', 'l', 's', 'e'] rest then
          some (Json.bool false, rest.drop 4)
        else none
      else if c = '"' then
        (parseStrBody fuel rest).map (fun p => (Json.str ⟨p.1⟩, p.2))
      else if c = '[' then
        match skipWs rest with
        | ']' :: r2 => some (Json.arr [], r2)
        | _ => (parseElems fuel rest).map (fun p => (Json.arr p.1, p.2))
      else if c = Char.ofNat 123 then
        match skipWs rest with
        | r2 =>
          if r2.head? = some (Char.ofNat 125) then some (Json.obj [], r2.drop 1)
          else (parseMembers fuel rest).map (fun p => (Json.obj p.1, p.2))
      else if c = '-' ∨ c.isDigit then
        (parseNumLexeme (c :: rest)).map (fun p => (Json.num ⟨p.1⟩, p.2))
      else none

/-- One or more comma-separated array elements, then `]`. -/
def parseElems : Nat → List Char → Option (List Json × List Char)
  | 0, _ => none
  | fuel + 1, l =>
    match parseValue fuel l with
    | none => none
    | some (v, rest) =>
      match skipWs rest with
      | ',' :: r2 => (parseElems fuel r2).map (fun p => (v :: p.1, p.2))
      | ']' :: r2 => some ([v], r2)
      | _ => none

/-- One or more comma-separated object members, then the closing brace. -/
def parseMembers : Nat → List Char → Option (List (String × Json) × List Char)
  | 0, _ => none
  | fuel + 1, l =>
    match skipWs l with
    | '"' :: rest =>
      match parseStrBody fuel rest with
      | none => none
      | some (key, r2) =>
        match skipWs r2 with
        | ':' :: r3 =>
          match parseValue fuel r3 with
          | none => none
          | some (v, r4) =>
            match skipWs r4 with
            | ',' :: r5 => (parseMembers fuel r5).map (fun p => ((⟨key⟩, v) :: p.1, p.2))
            | c :: r5 =>
              if c = Char.ofNat 125 then some ([(⟨key⟩, v)], r5) else none
            | [] => none
        | _ => none
    | _ => none

end

/-- `JSON.parse`: `some` on success, `none` where `JSON.parse` throws. -/
def parseJson (s : String) : Option Json :=
  match parseValue (2 * s.data.length + 8) s.data with
  | some (j, rest) => if (skipWs rest).isEmpty then some j else none
  | none => none

/-! ## Regular-expression matching

The three regular-expression literals used by the embedded code are built from
optional literals, single characters, character classes and greedy `*`/`+`
over character classes, with a single capture group.  `matchToks` implements
backtracking matching of such a token list with the JavaScript preference
order (greedy quantifiers try the longest extent first; `?` tries the present
alternative first); `patSearch` adds the leftmost-start search performed by
`String.prototype.match` / `String.prototype.replace`. -/

/-- One regular-expression token. -/
inductive Tok where
  | lit (s : List Char)
  | one (cs : List Char)
  | star (cs : List Char)
  | plus (cs : List Char)
  | optLit (s : List Char)

/-- Character comparison, optionally case-insensitive (the `/i` flag). -/
def charEqCI (ci : Bool) (a b : Char) : Bool :=
  if ci then asciiLowerChar a = asciiLowerChar b else a = b

/-- Class membership under optional case folding. -/
def memCI (ci : Bool) (c : Char) (cs : List Char) : Bool :=
  cs.any (fun p => charEqCI ci p c)

/-- Strip a literal prefix under optional case folding. -/
def stripLitCI (ci : Bool) : List Char → List Char → Option (List Char)
  | [], l => some l
  | _ :: _, [] => none
  | p :: ps, c :: cs => if charEqCI ci p c then stripLitCI ci ps cs else none

/-- Backtracking matcher for a token list.  `k` is the success continuation,
taking the remaining input and the position after the consumed part; the
result of the highest-priority matching alternative is returned. -/
def matchToks (ci : Bool) : List Tok → List Char → Nat → (List Char → Nat → Option α) → Option α
  | [], l, pos, k => k l pos
  | .lit s :: ts, l, pos, k =>
    match stripLitCI ci s l with
    | some l' => matchToks ci ts l' (pos + s.length) k
    | none => none
  | .one cs :: ts, l, pos, k =>
    match l with
    | [] => none
    | c :: l' => if memCI ci c cs then matchToks ci ts l' (pos + 1) k else none
  | .star cs :: ts, l, pos, k =>
    let m := (l.takeWhile (fun c => memCI ci c cs)).length
    (List.range (m + 1)).findSome? fun j =>
      matchToks ci ts (l.drop (m - j)) (pos + (m - j)) k
  | .plus cs :: ts, l, pos, k =>
    let m := (l.takeWhile (fun c => memCI ci c cs)).length
    if m = 0 then none
    else
      (List.range m).findSome? fun j =>
        matchToks ci ts (l.drop (m - j)) (pos + (m - j)) k
  | .optLit s :: ts, l, pos, k =>
    (match stripLitCI ci s l with
     | some l' => matchToks ci ts l' (pos + s.length) k
     | none => none) <|>
      matchToks ci ts l pos k

/-- A pattern with one capture group: tokens before the group, the group
body, and tokens after the group. -/
structure PatternSpec where
  ci : Bool
  pre : List Tok
  body : List Tok
  post : List Tok

/-- Spans of a successful match: overall start and end, group start and end
(all as positions in the subject). -/
structure MatchSpans where
  start : Nat
  grpStart : Nat
  grpEnd : Nat
  stop : Nat
deriving DecidableEq, Repr

/-- Try to match `p` with the match starting exactly at position `pos`
(input remainder `l`). -/
def matchPatternAt (p : PatternSpec) (l : List Char) (pos : Nat) : Option MatchSpans :=
  matchToks p.ci p.pre l pos fun l1 p1 =>
    matchToks p.ci p.body l1 p1 fun l2 p2 =>
      matchToks p.ci p.post l2 p2 fun _ p3 =>
        some { start := pos, grpStart := p1, grpEnd := p2, stop := p3 }

/-- Leftmost match of `p` in `s`, as performed by `String.prototype.match`
with a non-global regular expression. -/
def patSearch (p : PatternSpec) (s : String) : Option MatchSpans :=
  (List.range (s.data.length + 1)).findSome? fun i =>
    matchPatternAt p (s.data.drop i) i

/-- The matched text (`match[0]`) for given spans. -/
def spansMatched (s : String) (m : MatchSpans) : String :=
  ⟨(s.data.take m.stop).drop m.start⟩

/-- The group capture (`match[1]`) for given spans. -/
def spansGroup (s : String) (m : MatchSpans) : String :=
  ⟨(s.data.take m.grpEnd).drop m.grpStart⟩

/-- `s.replace(re, "")` for a non-global `re`: remove the leftmost match. -/
def replaceFirstEmpty (p : PatternSpec) (s : String) : String :=
  match patSearch p s with
  | some m => ⟨s.data.take m.start ++ s.data.drop m.stop⟩
  | none => s

/-- The opening-brace character. -/
def lbrace : Char := Char.ofNat 123

/-- The closing-brace character. -/
def rbrace : Char := Char.ofNat 125

/-- The source regular expression
`/(?:```json)?\\s*(\\{\\s*[\\s\\S]*\\s*\\})\\s*(?:```)?/m`
(literal bytes of `src/unnamed/part_000`, line 122).  Because the source
contains doubled backslashes, `\\` is an escaped literal backslash and the
following `s`/`S`/`d`/brace characters are plain characters, so the pattern
requires literal backslash characters in the subject; the `m` flag is
irrelevant (no anchors). -/
def jsonBlockPattern : PatternSpec :=
  { ci := false
    pre := [.optLit "```json".data, .one ['\\'], .star ['s']]
    body := [.one ['\\'], .one [lbrace], .one ['\\'], .star ['s'],
             .star ['\\', 's', 'S'], .one ['\\'], .star ['s'],
             .one ['\\'], .one [rbrace]]
    post := [.one ['\\'], .star ['s'], .optLit "```".data] }

/-- The source fallback regular expression `/(\\{\\s*[\\s\\S]*\\s*\\})/m`
(`src/unnamed/part_000`, line 150), with the same doubled-backslash bytes. -/
def fallbackJsonPattern : PatternSpec :=
  { ci := false
    pre := []
    body := [.one ['\\'], .one [lbrace], .one ['\\'], .star ['s'],
             .star ['\\', 's', 'S'], .one ['\\'], .star ['s'],
             .one ['\\'], .one [rbrace]]
    post := [] }

/-- The source regular expression `/\\(Question \\d+ of \\d+\\) /i`
(`src/components/ChatInput.tsx`, line 1219).  With the doubled backslashes,
`\\` is a literal backslash, `(` opens the (unused) capture group, and `d+`
is one or more letters `d` (case-insensitive). -/
def questionProgressPattern : PatternSpec :=
  { ci := true
    pre := [.one ['\\']]
    body := [.lit "Question ".data, .one ['\\'], .plus ['d'],
             .lit " of ".data, .one ['\\'], .plus ['d'], .one ['\\']]
    post := [.lit " ".data] }

/-! ### `JSON.stringify(v, null, 2)` -/

/-- Lower-case hexadecimal digit. -/
def hexDigitChar (n : Nat) : Char :=
  if n < 10 then Char.ofNat ('0'.toNat + n) else Char.ofNat ('a'.toNat + n - 10)

/-- String-character escaping as performed by `JSON.stringify`. -/
def escapeJsonChar (c : Char) : List Char :=
  if c = '"' then ['\\', '"']
  else if c = '\\' then ['\\', '\\']
  else if c = '\n' then ['\\', 'n']
  else if c = '\r' then ['\\', 'r']
  else if c = '\t' then ['\\', 't']
  else if c = Char.ofNat 8 then ['\\', 'b']
  else if c = Char.ofNat 12 then ['\\', 'f']
  else if c.toNat < 32 then
    ['\\', 'u', '0', '0', hexDigitChar (c.toNat / 16), hexDigitChar (c.toNat % 16)]
  else [c]

/-- A JSON string literal as emitted by `JSON.stringify`. -/
def quoteJsonString (s : String) : List Char :=
  '"' :: (s.data.flatMap escapeJsonChar) ++ ['"']

mutual

/-- `JSON.stringify(v, null, 2)` at nesting level `lvl`.  (Number values are
re-emitted with their stored lexeme; numeric canonicalisation performed by
the JavaScript engine is not modelled — no embedded theorem depends on it.) -/
def stringify2Val : Json → Nat → List Char
  | .null, _ => "null".data
  | .bool true, _ => "true".data
  | .bool false, _ => "false".data
  | .num lx, _ => lx.data
  | .str s, _ => quoteJsonString s
  | .arr [], _ => ['[', ']']
  | .arr (x :: xs), lvl =>
    '[' :: '\n' :: (stringify2Items (x :: xs) (lvl + 1) ++
      ('\n' :: List.replicate (2 * lvl) ' ' ++ [']']))
  | .obj [], _ => [lbrace, rbrace]
  | .obj (f :: fs), lvl =>
    lbrace :: '\n' :: (stringify2Fields (f :: fs) (lvl + 1) ++
      ('\n' :: List.replicate (2 * lvl) ' ' ++ [rbrace]))

/-- Comma-and-newline separated, indented array items. -/
def stringify2Items : List Json → Nat → List Char
  | [], _ => []
  | [x], lvl => List.replicate (2 * lvl) ' ' ++ stringify2Val x lvl
  | x :: y :: xs, lvl =>
    List.replicate (2 * lvl) ' ' ++ stringify2Val x lvl ++
      (',' :: '\n' :: stringify2Items (y :: xs) lvl)

/-- Comma-and-newline separated, indented object members. -/
def stringify2Fields : List (String × Json) → Nat → List Char
  | [], _ => []
  | [(k, v)], lvl =>
    List.replicate (2 * lvl) ' ' ++ quoteJsonString k ++ (':' :: ' ' :: stringify2Val v lvl)
  | (k, v) :: f :: fs, lvl =>
    List.replicate (2 * lvl) ' ' ++ quoteJsonString k ++ (':' :: ' ' :: stringify2Val v lvl) ++
      (',' :: '\n' :: stringify2Fields (f :: fs) lvl)

end

/-- `JSON.stringify(v, null, 2)`. -/
def jsonStringify2 (v : Json) : String :=
  ⟨stringify2Val v 0⟩

/-! ## Plan extraction (`parsePlanFromGeminiResponse`, `src/unnamed/part_000`
lines 112-190) -/

/-- The default plan text substituted when nothing else is found
(`src/unnamed/part_000` lines 142 and 164). -/
def defaultPlanHeader : String := "Here is the structured product plan:"

/-- The default plan text substituted at the final return
(`src/unnamed/part_000` line 174). -/
def defaultPlanDetails : String := "Generated plan details below:"

/-- The hard-failure error message (`src/unnamed/part_000` line 184). -/
def hardFailureMsg : String :=
  "Failed to parse plan JSON (invalid JSON), and no text plan available."

/-- The no-content error message (`src/unnamed/part_000` line 189). -/
def noSuitableContentMsg : String :=
  "Failed to process plan from Gemini API: No suitable content."

/-- The `details` field of the error-marker object carries
`e.message` of the `JSON.parse` exception; that text is JavaScript-engine
specific and is modelled by this constant. -/
def jsonParseDetails : String := "JSON.parse: syntax error"

/-- The error-marker object built when the candidate JSON string fails to
parse (`src/unnamed/part_000` line 178). -/
def planParseErrorJson (orig : String) : Json :=
  Json.obj [("error", Json.str "Failed to parse JSON plan"),
            ("details", Json.str jsonParseDetails),
            ("originalJsonString", Json.str orig)]

/-- A `{ planText, planJson }` pair. -/
structure PlanPair where
  planText : String
  planJson : Json
deriving DecidableEq, Repr

/-- The fallback pass of the extractor (`src/unnamed/part_000` lines
145-170): the whole response is the plan text; a looser search is run and
accepted only if its capture parses as JSON, in which case the plan text is
re-trimmed around it. -/
def extractFallbackParts (combinedText : String) : String × String :=
  let planText := jsTrimS combinedText
  match patSearch fallbackJsonPattern combinedText with
  | some m =>
    let g := spansGroup combinedText m
    if g ≠ "" then
      if (parseJson g).isSome then
        let planJsonString := jsTrimS g
        match indexOfS planText planJsonString with
        | some heuristicStart =>
          if heuristicStart > 0 then
            (jsTrimS (substrTo planText heuristicStart), planJsonString)
          else
            let textAfterFallbackJson :=
              jsTrimS (substrFrom combinedText planJsonString.data.length)
            if textAfterFallbackJson ≠ "" then (textAfterFallbackJson, planJsonString)
            else (defaultPlanHeader, planJsonString)
        | none => (planText, planJsonString)
      else (planText, "\x7b\x7d")
    else (planText, "\x7b\x7d")
  | none => (planText, "\x7b\x7d")

/-- The two extraction passes (`src/unnamed/part_000` lines 118-170),
producing the plan text and the candidate JSON string (`planJsonString`
defaults to the empty-object lexeme). -/
def extractPlanParts (combinedText : String) : String × String :=
  match patSearch jsonBlockPattern combinedText with
  | some m =>
    let g := spansGroup combinedText m
    if g ≠ "" then
      let planJsonString := jsTrimS g
      let matched := spansMatched combinedText m
      let jsonStartIndex := (indexOfS combinedText matched).getD 0
      let planText0 := jsTrimS (substrTo combinedText jsonStartIndex)
      let planText1 :=
        if planText0 = "" ∧ jsonStartIndex = 0 then
          let textAfterJson :=
            jsTrimS (substrFrom combinedText (jsonStartIndex + matched.data.length))
          if textAfterJson ≠ "" then textAfterJson else planText0
        else planText0
      let planText2 := if planText1 = "" then defaultPlanHeader else planText1
      (planText2, planJsonString)
    else extractFallbackParts combinedText
  | none => extractFallbackParts combinedText

/-- The final parse step (`src/unnamed/part_000` lines 172-185) applied to
the extracted parts: parse success yields the pair (with the second default
text when the plan text is empty); parse failure yields the soft error-marker
pair when any plan text exists and the hard failure otherwise. -/
def parsePlanCore (combinedText : String) : Except String PlanPair :=
  let parts := extractPlanParts combinedText
  match parseJson parts.2 with
  | some j =>
    Except.ok { planText := if parts.1 = "" then defaultPlanDetails else parts.1
                planJson := j }
  | none =>
    if parts.1 ≠ "" then
      Except.ok { planText := parts.1, planJson := planParseErrorJson parts.2 }
    else Except.error hardFailureMsg

/-- One text part of a Gemini candidate. -/
structure GeminiPart where
  text : Option String

/-- The content of a Gemini candidate. -/
structure GeminiContent where
  parts : List GeminiPart

/-- A Gemini response candidate. -/
structure GeminiCandidate where
  content : GeminiContent

/-- A Gemini API response body (the fields the extractor reads). -/
structure GeminiResponse where
  candidates : List GeminiCandidate

/-- `parts.map(p => p.text || "").join("")`. -/
def combinedTextOf (c : GeminiCandidate) : String :=
  String.join (c.content.parts.map (fun p => p.text.getD ""))

/-- `parsePlanFromGeminiResponse` (`src/unnamed/part_000` lines 112-190):
`Except.error` models the function throwing. -/
def parsePlanFromGeminiResponse (r : GeminiResponse) : Except String PlanPair :=
  match r.candidates with
  | [] => Except.error noSuitableContentMsg
  | c :: _ =>
    match c.content.parts with
    | [] => Except.error noSuitableContentMsg
    | _ :: _ => parsePlanCore (combinedTextOf c)

/-! ## The conversation state machine
(`src/components/ChatInput.tsx`, `ChatInterfaceComponent`, lines 808-1573)

Each React `useState` cell becomes a field of `ChatState`.  The two event
handlers become pure functions of the pre-state, the event payload and the
outcomes of the external calls awaited in that run; they return the
post-state together with the list of external calls issued and the list of
every value passed to `setChatPhase`, in order. -/

/-- A chat `Message` (from `src/types/chat.ts`).  `mid` is the deterministic
prefix of the source `id` (the `Date.now()` suffix is dropped); `timestamp`
is omitted. -/
structure Message where
  mid : String
  role : String
  content : String
  isLoading : Bool := false
  emotion : Option String := none
  isQuestion : Bool := false
  questionId : Option String := none
  answered : Option String := none
  planText : Option String := none
  planJson : Option Json := none
deriving DecidableEq, Repr

/-- The stored current plan (`currentPlan : { text, json } | null`). -/
structure CurrentPlan where
  text : String
  json : Json
deriving DecidableEq, Repr

/-- All component state cells the handlers read or write. -/
structure ChatState where
  messages : List Message
  isAIThinking : Bool
  chatPhase : String
  currentProductIdea : Option String
  questionsForUser : List String
  answersFromUser : List (String × Bool)
  currentQuestionIndex : Nat
  totalQuestionsCount : Nat
  currentPlan : Option CurrentPlan
deriving DecidableEq, Repr

/-- The eight values of the `ChatPhase` union type
(`src/components/ChatInput.tsx` lines 904-912). -/
def chatPhaseValues : List String :=
  ["awaiting_idea", "generating_questions", "awaiting_question_answer",
   "generating_plan", "awaiting_plan_feedback", "revising_plan",
   "plan_finalized", "error_state"]

/-- An external call issued by a handler run. -/
inductive ExtCall where
  | clarifyingQuestions (idea : String)
  | generatePlan (idea : String) (answers : List (String × Bool))
  | revisePlan (planJson : Json) (feedback : String) (idea : Option String)
      (answers : List (String × Bool))
  | detailedPlanPost (plan : Json)
deriving DecidableEq, Repr

/-- Outcome of the `fetch` of the detailed-plan endpoint: a network rejection,
a response whose `.json()` resolves (any HTTP status — the code never reads
`response.ok`), or a response whose `.json()` rejects. -/
inductive FetchOutcome where
  | netFail (errMsg : String)
  | respJson (status : Nat) (body : Json)
  | respBadBody (status : Nat) (errMsg : String)
deriving DecidableEq, Repr

/-- Outcomes of the external calls `handleSendMessage` may await.  Error
payloads carry the thrown error's `message`. -/
structure SendOutcomes where
  questionsOutcome : Except String (List String)
  fetchOutcome : FetchOutcome
  reviseOutcome : Except String PlanPair
deriving Repr

/-- A handler run: post-state, external calls issued, and every value passed
to `setChatPhase`, in order. -/
structure HandlerResult where
  state : ChatState
  calls : List ExtCall
  phaseTrace : List String
deriving DecidableEq, Repr

/-- Append a message. -/
def addMsg (st : ChatState) (m : Message) : ChatState :=
  { st with messages := st.messages ++ [m] }

/-- `setMessages(prev => prev.filter(m => m.id !== ...))`. -/
def removeMsg (st : ChatState) (mid : String) : ChatState :=
  { st with messages := st.messages.filter (fun m => m.mid ≠ mid) }

/-- JavaScript truthiness of the `currentProductIdea` cell. -/
def ideaTruthy : Option String → Bool
  | none => false
  | some s => s ≠ ""

/-- `{ ...answers, [key]: value }`: overwrite in place or append. -/
def objSet (m : List (String × Bool)) (k : String) (v : Bool) : List (String × Bool) :=
  if m.any (fun p => p.1 = k) then
    m.map (fun p => if p.1 = k then (k, v) else p)
  else m ++ [(k, v)]

/-- The complexity keyword list (`src/components/ChatInput.tsx` line 972). -/
def complexityKeywords : List String :=
  ["ml model", "web3", "blockchain", "artificial intelligence",
   "deep learning", "neural network", "crypto", "smart contract"]

/-- The large-scale keyword list (`src/components/ChatInput.tsx` line 973). -/
def largeScaleKeywords : List String :=
  ["global scale", "billions of users", "worldwide platform",
   "enterprise grade for fortune 500"]

/-! ### The fixed messages -/

/-- The echoed user message. -/
def userMessage (content : String) : Message :=
  { mid := "user", role := "user", content := content }

/-- The too-vague guidance message. -/
def promptElaborationMessage : Message :=
  { mid := "elaborate-", role := "assistant",
    content := "That\x27s a start! To help me understand, could you please provide a more detailed description of your product idea? What problem does it solve, or what does it aim to achieve?",
    emotion := some "confused" }

/-- The too-complex guidance message. -/
def complexIdeaMessage : Message :=
  { mid := "complex-idea-", role := "assistant",
    content := "That sounds like a very ambitious and potentially complex project! While I can help plan many types of software, developing a full end-to-end solution involving advanced AI/ML, Web3, or massive global scale might be beyond the scope of what I can effectively help you plan in detail right now. Could we perhaps focus on a simpler core concept or a more specific, manageable part of this idea?",
    emotion := some "concerned" }

/-- The question-generation loading message. -/
def thinkingQuestionsMessage : Message :=
  { mid := "thinking-questions-", role := "assistant",
    content := "Great idea! Thinking of some clarifying questions for you...",
    isLoading := true }

/-- The first clarifying question, with its progress label. -/
def firstQuestionMessage (qs : List String) : Message :=
  { mid := "question-0", role := "assistant",
    content := "(Question 1 of " ++ toString qs.length ++ ") " ++ qs.headD "undefined",
    isQuestion := true, questionId := some "q-0" }

/-- The no-questions fallback message. -/
def noQuestionsMessage : Message :=
  { mid := "no-questions-", role := "assistant",
    content := "I couldn\x27t generate specific questions for that idea. Could you perhaps elaborate a bit more, or provide a different angle?",
    emotion := some "confused" }

/-- The question-generation failure message. -/
def errorQuestionsMessage (errMsg : String) : Message :=
  { mid := "error-questions-", role := "assistant",
    content := "Error generating questions: " ++
      (if errMsg = "" then "Please try again." else errMsg),
    emotion := some "concerned" }

/-- The yes/no-buttons reminder. -/
def clarificationMessage : Message :=
  { mid := "clarification-", role := "assistant",
    content := "Please use the \x27Yes\x27 or \x27No\x27 buttons to answer the current question." }

/-- The notice shown when acceptance arrives with no stored plan. -/
def noPlanMessage : Message :=
  { mid := "error-no-plan-to-finalize-", role := "assistant",
    content := "There isn\x27t a current plan to finalize. Let\x27s generate one first!" }

/-- The detailed-plan loading message. -/
def loadingDetailedPlanMessage : Message :=
  { mid := "loading-detailed-plan-", role := "assistant",
    content := "Generating a detailed technical plan, please wait...",
    isLoading := true }

/-- The detailed plan, rendered with `JSON.stringify(detailedPlan, null, 2)`. -/
def detailedPlanMessage (body : Json) : Message :=
  { mid := "detailed-plan-", role := "assistant", content := jsonStringify2 body }

/-- The detailed-plan failure message. -/
def detailedPlanErrorMessage (errMsg : String) : Message :=
  { mid := "error-detailed-plan-", role := "assistant",
    content := "Failed to generate detailed plan: " ++
      (if errMsg = "" then "Unknown error" else errMsg),
    emotion := some "concerned" }

/-- The finalization notice. -/
def planFinalizedMessage : Message :=
  { mid := "plan-finalized-", role := "assistant",
    content := "Detailed plan generated and saved. You can start a new idea now.",
    emotion := some "happy" }

/-- The revision loading message. -/
def thinkingRevisionMessage : Message :=
  { mid := "thinking-revision-", role := "assistant",
    content := "Got your feedback! Revising the plan...", isLoading := true }

/-- The revised plan text message. -/
def revisedPlanTextMessage (t : String) : Message :=
  { mid := "revised-plan-text-", role := "assistant",
    content := if t = "" then "Here is the revised plan:" else t,
    planText := some t }

/-- The revised plan JSON message. -/
def revisedPlanJsonMessage (j : Json) : Message :=
  { mid := "revised-plan-json-", role := "assistant",
    content := "Updated structured JSON version of the plan:", planJson := some j }

/-- The post-revision feedback prompt. -/
def feedbackPromptRevisedMessage : Message :=
  { mid := "feedback-prompt-revised-", role := "assistant",
    content := "What do you think of the revised plan? You can provide more changes, or type \x27Looks good\x27 or \x27Accept plan\x27 to finalize it." }

/-- The revision failure message. -/
def errorRevisionMessage (errMsg : String) : Message :=
  { mid := "error-revision-", role := "assistant",
    content := "Error revising plan: " ++
      (if errMsg = "" then "Please try again." else errMsg),
    emotion := some "concerned" }

/-- The already-finalized prompt. -/
def startNewMessage : Message :=
  { mid := "plan-finalized-prompt-", role := "assistant",
    content := "Plan already finalized. Please describe a new product idea to begin." }

/-- The `n`-th clarifying question with progress label (`n` is 0-based). -/
def nextQuestionMessage (idx total : Nat) (qtext : String) : Message :=
  { mid := "question-" ++ toString idx, role := "assistant",
    content := "(Question " ++ toString (idx + 1) ++ " of " ++ toString total ++ ") " ++ qtext,
    isQuestion := true, questionId := some ("q-" ++ toString idx) }

/-- The plan-synthesis loading message. -/
def thinkingPlanMessage : Message :=
  { mid := "thinking-plan-", role := "assistant",
    content := "All questions answered! Generating your initial product plan...",
    isLoading := true }

/-- The initial plan text message. -/
def planTextMessage (t : String) : Message :=
  { mid := "plan-text-", role := "assistant",
    content := if t = "" then "Here is your initial product plan:" else t,
    planText := some t }

/-- The initial plan JSON message. -/
def planJsonMessage (j : Json) : Message :=
  { mid := "plan-json-", role := "assistant",
    content := "Here is the structured JSON version of the plan:", planJson := some j }

/-- The initial-plan feedback prompt. -/
def feedbackPromptMessage : Message :=
  { mid := "feedback-prompt-", role := "assistant",
    content := "What do you think of this initial plan? Please provide any feedback for changes, or type \x27Looks good\x27 or \x27Accept plan\x27 to finalize it." }

/-- The plan-synthesis failure message. -/
def errorPlanMessage (errMsg : String) : Message :=
  { mid := "error-plan-", role := "assistant",
    content := "Error generating plan: " ++
      (if errMsg = "" then "Please try again." else errMsg),
    emotion := some "concerned" }

/-- The welcome message. -/
def welcomeMessage : Message :=
  { mid := "welcome-1", role := "assistant",
    content := "Welcome to Zelash! I\x27m your Product Strategist. To begin, please describe the product idea you\x27d like to develop.",
    emotion := some "happy" }

/-- `initialMessages`. -/
def initialMessages : List Message := [welcomeMessage]

/-- The initial component state. -/
def initialChatState : ChatState :=
  { messages := initialMessages, isAIThinking := false,
    chatPhase := "awaiting_idea", currentProductIdea := none,
    questionsForUser := [], answersFromUser := [],
    currentQuestionIndex := 0, totalQuestionsCount := 0, currentPlan := none }

/-- The engine message of the `TypeError` thrown by `currentPlan.json` when
`currentPlan` is `null` (engine specific; modelled by this constant). -/
def nullPlanTypeError : String := "Cannot read properties of null (reading \x27json\x27)"

/-! ### `handleSendMessage` (lines 943-1216) -/

/-- The `awaiting_idea` branch (lines 954-1068): validation, then the
question-generation call. -/
def sendAwaitingIdea (st0 : ChatState) (messageContent : String)
    (o : SendOutcomes) : HandlerResult :=
  let lowerCaseIdea := asciiLowerS messageContent
  let ideaLength := (jsTrimS messageContent).length
  if ideaLength < 15 ∨ lowerCaseIdea = "hi" ∨ lowerCaseIdea = "hello" ∨
      lowerCaseIdea = "hey" ∨ lowerCaseIdea = "yo" then
    { state := addMsg st0 promptElaborationMessage, calls := [], phaseTrace := [] }
  else
    let isComplexKeyword := complexityKeywords.any (fun k => containsS lowerCaseIdea k)
    let isTooComplex :=
      if isComplexKeyword then true
      else largeScaleKeywords.any (fun k => containsS lowerCaseIdea k)
    if isTooComplex then
      { state := addMsg st0 complexIdeaMessage, calls := [], phaseTrace := [] }
    else
      let st1 := { st0 with currentProductIdea := some messageContent,
                            chatPhase := "generating_questions",
                            isAIThinking := true,
                            answersFromUser := [],
                            currentQuestionIndex := 0,
                            totalQuestionsCount := 0,
                            currentPlan := none }
      let st2 := addMsg st1 thinkingQuestionsMessage
      match o.questionsOutcome with
      | Except.ok generatedQuestions =>
        let st3 := removeMsg st2 "thinking-questions-"
        if generatedQuestions.length > 0 then
          let st4 := { st3 with questionsForUser := generatedQuestions,
                                totalQuestionsCount := generatedQuestions.length }
          let st5 := addMsg st4 (firstQuestionMessage generatedQuestions)
          { state := { st5 with chatPhase := "awaiting_question_answer",
                                isAIThinking := false },
            calls := [ExtCall.clarifyingQuestions messageContent],
            phaseTrace := ["generating_questions", "awaiting_question_answer"] }
        else
          { state := { addMsg st3 noQuestionsMessage with
                         chatPhase := "awaiting_idea", isAIThinking := false },
            calls := [ExtCall.clarifyingQuestions messageContent],
            phaseTrace := ["generating_questions", "awaiting_idea"] }
      | Except.error errMsg =>
        let st3 := removeMsg st2 "thinking-questions-"
        { state := { addMsg st3 (errorQuestionsMessage errMsg) with
                       chatPhase := "error_state", isAIThinking := false },
          calls := [ExtCall.clarifyingQuestions messageContent],
          phaseTrace := ["generating_questions", "error_state"] }

/-- The `awaiting_plan_feedback` branch (lines 1077-1147).  An accept keyword
with a stored plan moves to the (undeclared) phase `fetching_detailed_plan`,
posts the plan, and the `finally` block finalizes and resets; without a
stored plan only a notice is emitted.  Any other text falls into the empty
`yes`/`no` branch or past the chain: nothing happens.  The acceptance test is
the case-insensitive substring check of line 1079. -/
def containsAcceptKeyword (lowerCaseContent : String) : Bool :=
  containsS lowerCaseContent "accept" || containsS lowerCaseContent "looks good" ||
    containsS lowerCaseContent "finalize"

/-- The `awaiting_plan_feedback` branch, continued: see the doc comment
above `containsAcceptKeyword` for the acceptance test (line 1079). -/
def sendPlanFeedback (st0 : ChatState) (messageContent : String)
    (o : SendOutcomes) : HandlerResult :=
  if containsAcceptKeyword (asciiLowerS messageContent) then
    match st0.currentPlan with
    | none =>
      { state := addMsg st0 noPlanMessage, calls := [], phaseTrace := [] }
    | some plan =>
      let st1 := { st0 with chatPhase := "fetching_detailed_plan" }
      let st2 := addMsg st1 loadingDetailedPlanMessage
      let afterTry :=
        match o.fetchOutcome with
        | FetchOutcome.respJson _ body =>
          addMsg (removeMsg st2 "loading-detailed-plan-") (detailedPlanMessage body)
        | FetchOutcome.respBadBody _ errMsg =>
          addMsg st2 (detailedPlanErrorMessage errMsg)
        | FetchOutcome.netFail errMsg =>
          addMsg st2 (detailedPlanErrorMessage errMsg)
      let finalSt := { addMsg afterTry planFinalizedMessage with
                         currentProductIdea := none,
                         answersFromUser := [],
                         currentQuestionIndex := 0,
                         questionsForUser := [],
                         currentPlan := none,
                         chatPhase := "awaiting_idea" }
      { state := finalSt,
        calls := [ExtCall.detailedPlanPost plan.json],
        phaseTrace := ["fetching_detailed_plan", "awaiting_idea"] }
  else
    { state := st0, calls := [], phaseTrace := [] }

/-- The `revising_plan` branch (lines 1148-1206).  When `currentPlan` is
`null`, evaluating `currentPlan.json` inside the `try` throws a `TypeError`
that the `catch` turns into the revision error message, before any call is
made. -/
def sendRevisingPlan (st0 : ChatState) (messageContent : String)
    (o : SendOutcomes) : HandlerResult :=
  let st1 := addMsg st0 thinkingRevisionMessage
  match st0.currentPlan with
  | none =>
    let st2 := removeMsg st1 "thinking-revision-"
    { state := { addMsg st2 (errorRevisionMessage nullPlanTypeError) with
                   chatPhase := "awaiting_plan_feedback", isAIThinking := false },
      calls := [],
      phaseTrace := ["awaiting_plan_feedback"] }
  | some plan =>
    match o.reviseOutcome with
    | Except.ok revised =>
      let st2 := removeMsg st1 "thinking-revision-"
      let newPlan : Option CurrentPlan := some ⟨revised.planText, revised.planJson⟩
      let st3 := { st2 with currentPlan := newPlan }
      let st4 := addMsg (addMsg (addMsg st3 (revisedPlanTextMessage revised.planText))
                   (revisedPlanJsonMessage revised.planJson)) feedbackPromptRevisedMessage
      { state := { st4 with chatPhase := "awaiting_plan_feedback", isAIThinking := false },
        calls := [ExtCall.revisePlan plan.json messageContent st0.currentProductIdea
                    st0.answersFromUser],
        phaseTrace := ["awaiting_plan_feedback"] }
    | Except.error errMsg =>
      let st2 := removeMsg st1 "thinking-revision-"
      { state := { addMsg st2 (errorRevisionMessage errMsg) with
                     chatPhase := "awaiting_plan_feedback", isAIThinking := false },
        calls := [ExtCall.revisePlan plan.json messageContent st0.currentProductIdea
                    st0.answersFromUser],
        phaseTrace := ["awaiting_plan_feedback"] }

/-- `handleSendMessage` (lines 943-1216).  Phases without a branch in the
source `if`-chain (`generating_questions`, `generating_plan`, `error_state`,
and the undeclared `fetching_detailed_plan`) only echo the user message. -/
def handleSendMessage (st : ChatState) (messageContent : String)
    (o : SendOutcomes) : HandlerResult :=
  if jsTrimS messageContent = "" then { state := st, calls := [], phaseTrace := [] }
  else
    let st0 := addMsg st (userMessage messageContent)
    if st.chatPhase = "awaiting_idea" then sendAwaitingIdea st0 messageContent o
    else if st.chatPhase = "awaiting_question_answer" then
      { state := addMsg st0 clarificationMessage, calls := [], phaseTrace := [] }
    else if st.chatPhase = "awaiting_plan_feedback" then
      sendPlanFeedback st0 messageContent o
    else if st.chatPhase = "revising_plan" then sendRevisingPlan st0 messageContent o
    else if st.chatPhase = "plan_finalized" then
      { state := addMsg st0 startNewMessage, calls := [], phaseTrace := [] }
    else { state := st0, calls := [], phaseTrace := [] }

/-! ### `handleAnswerSelect` (lines 1218-1304) -/

/-- `handleAnswerSelect`: strip the progress label with the source regular
expression (which, with its doubled backslashes, does not match ordinary
question content), flip the question message, record the answer, advance the
index, and either show the next question or synthesize the plan. -/
def handleAnswerSelect (st : ChatState) (questionMessageId : String)
    (contentWithProgress : String) (answer : Bool)
    (planOutcome : Except String PlanPair) : HandlerResult :=
  let actualQuestionText :=
    jsTrimS (replaceFirstEmpty questionProgressPattern contentWithProgress)
  let st0 := { st with messages := st.messages.map (fun (m : Message) =>
      if m.mid = questionMessageId then
        { m with answered := some (if answer then "yes" else "no"), isQuestion := false }
      else m) }
  let newAnswers := objSet st.answersFromUser actualQuestionText answer
  let st1 := { st0 with answersFromUser := newAnswers }
  let nextIdx := st.currentQuestionIndex + 1
  let st2 := { st1 with currentQuestionIndex := nextIdx }
  if nextIdx < st.totalQuestionsCount ∧ ideaTruthy st.currentProductIdea = true then
    { state := addMsg st2 (nextQuestionMessage nextIdx st.totalQuestionsCount
        (st.questionsForUser.getD nextIdx "undefined")),
      calls := [], phaseTrace := [] }
  else if nextIdx ≥ st.totalQuestionsCount ∧ ideaTruthy st.currentProductIdea = true then
    let st3 := { st2 with chatPhase := "generating_plan", isAIThinking := true }
    let st4 := addMsg st3 thinkingPlanMessage
    let idea := st.currentProductIdea.getD ""
    match planOutcome with
    | Except.ok pp =>
      let st5 := removeMsg st4 "thinking-plan-"
      let st6 := { st5 with currentPlan := some ⟨pp.planText, pp.planJson⟩ }
      let st7 := addMsg (addMsg (addMsg st6 (planTextMessage pp.planText))
                   (planJsonMessage pp.planJson)) feedbackPromptMessage
      { state := { st7 with chatPhase := "awaiting_plan_feedback", isAIThinking := false },
        calls := [ExtCall.generatePlan idea newAnswers],
        phaseTrace := ["generating_plan", "awaiting_plan_feedback"] }
    | Except.error errMsg =>
      let st5 := removeMsg st4 "thinking-plan-"
      { state := { addMsg st5 (errorPlanMessage errMsg) with
                     chatPhase := "error_state", isAIThinking := false },
        calls := [ExtCall.generatePlan idea newAnswers],
        phaseTrace := ["generating_plan", "error_state"] }
  else { state := st2, calls := [], phaseTrace := [] }

/-! ## A concrete reachable scenario

The scenario of spec §8: an accepted idea, two clarifying questions answered,
a plan synthesized.  Each step is a run of the embedded handlers from
`initialChatState`, so `feedbackState` below is reachable from the initial
state. -/

/-- Outcomes for runs that make no external call (the payloads are unused). -/
def noCallOutcomes : SendOutcomes :=
  { questionsOutcome := Except.error "", fetchOutcome := FetchOutcome.netFail "",
    reviseOutcome := Except.error "" }

/-- Outcomes whose question call succeeds with two questions. -/
def twoQuestionsOutcomes : SendOutcomes :=
  { questionsOutcome :=
      Except.ok ["Is it mobile-first?", "Should it sync across devices?"],
    fetchOutcome := FetchOutcome.netFail "", reviseOutcome := Except.error "" }

/-- Outcomes whose detailed-plan fetch yields HTTP 200 with a JSON body. -/
def fetch200Outcomes : SendOutcomes :=
  { questionsOutcome := Except.error "",
    fetchOutcome := FetchOutcome.respJson 200 (Json.obj [("ok", Json.bool true)]),
    reviseOutcome := Except.error "" }

/-- Outcomes whose detailed-plan fetch yields HTTP 500 with a JSON body. -/
def fetch500Outcomes : SendOutcomes :=
  { questionsOutcome := Except.error "",
    fetchOutcome := FetchOutcome.respJson 500 (Json.obj [("error", Json.str "boom")]),
    reviseOutcome := Except.error "" }

/-- The synthesized plan used by the scenario. -/
def scenarioPlanPair : PlanPair :=
  { planText := "Plan text", planJson := Json.obj [("productName", Json.str "Todo")] }

/-- Step 1: the idea is accepted and two questions are generated. -/
def sIdea : HandlerResult :=
  handleSendMessage initialChatState "Build a todo app for students" twoQuestionsOutcomes

/-- Step 2: the first question is answered Yes. -/
def sAnswer1 : HandlerResult :=
  handleAnswerSelect sIdea.state "question-0" "(Question 1 of 2) Is it mobile-first?"
    true (Except.error "")

/-- Step 3: the second question is answered No; the plan call succeeds. -/
def sPlanReady : HandlerResult :=
  handleAnswerSelect sAnswer1.state "question-1"
    "(Question 2 of 2) Should it sync across devices?" false (Except.ok scenarioPlanPair)

/-- The reachable state awaiting plan feedback with a stored plan. -/
def feedbackState : ChatState := sPlanReady.state

/-! ## Auxiliary states and outcomes for the claim theorems -/

/-- Outcomes whose detailed-plan fetch rejects with a network error. -/
def fetchFailOutcomes : SendOutcomes :=
  { questionsOutcome := Except.error "",
    fetchOutcome := FetchOutcome.netFail "Network down",
    reviseOutcome := Except.error "" }

/-- The feedback-phase state with the stored plan removed. -/
def noPlanFeedbackState : ChatState := { feedbackState with currentPlan := none }

/-- The plan-extraction input whose characters are
`N o t e ␣ \ \ { \ \ \ } \`: one of the few shapes the (double-escaped)
primary regular expression does match, with a capture that is not valid
JSON. -/
def bsNote : String := "Note \\\\\x7b\\\\\\\x7d\\"

/-- The spec §8 example input `"Summary here.\n```json\n{"a":1}\n```"`. -/
def c3input : String := "Summary here.\n```json\n\x7b\"a\":1\x7d\n```"

/-- A one-candidate, one-part Gemini response carrying `c3input`. -/
def c3response : GeminiResponse :=
  { candidates := [{ content := { parts := [{ text := some c3input }] } }] }

/-! ## Supporting lemmas -/

/-- Trimming never lengthens a character list. -/
theorem trimChars_length_le (l : List Char) : (trimChars l).length ≤ l.length := by
  unfold trimChars
  have h1 : ((l.dropWhile jsWhitespaceChar).reverse.dropWhile jsWhitespaceChar).length ≤
      (l.dropWhile jsWhitespaceChar).reverse.length :=
    (List.dropWhile_suffix _).sublist.length_le
  have h2 : (l.dropWhile jsWhitespaceChar).length ≤ l.length :=
    (List.dropWhile_suffix _).sublist.length_le
  simpa [List.length_reverse] using
    le_trans h1 (le_of_eq_of_le (List.length_reverse _) h2)

/-- Lower-casing preserves length. -/
theorem asciiLowerS_length (s : String) : (asciiLowerS s).data.length = s.data.length := by
  simp [asciiLowerS]

set_option maxRecDepth 16384

/-! ## The claims -/

/-- C1: the spec claims that free-text feedback without an accept keyword, in
phase `awaiting_plan_feedback`, triggers a model revision call and a move to
`revising_plan`.  In the code this transition does not exist: the non-accept
side of the branch is an empty `yes`/`no` stub, no code path ever passes
`revising_plan` to `setChatPhase`, and the fully written `revising_plan`
handler (lines 1148-1206) is dead.  At the reachable state `feedbackState`
(plan stored) the feedback `"add dark mode"` only echoes the user message:
no call, no phase change, no assistant message. -/
theorem C1_nonaccept_feedback_ignored :
    handleSendMessage feedbackState "add dark mode" noCallOutcomes =
      { state := { feedbackState with
                     messages := feedbackState.messages ++ [userMessage "add dark mode"] },
        calls := [], phaseTrace := [] } ∧
    feedbackState.chatPhase = "awaiting_plan_feedback" ∧
    feedbackState.currentPlan =
      some { text := "Plan text", json := Json.obj [("productName", Json.str "Todo")] } :=
  ⟨by decide, by decide, by decide⟩

/-- C2 counterexample: the claim says a non-2xx response surfaces a failure
message before the session is finalized.  The code never reads
`response.ok`: an HTTP 500 response whose body parses as JSON is shown as
the detailed plan, and no failure message is appended, while the session is
still reset. -/
theorem C2_counterexample_non2xx_body_shown_as_plan :
    fetch500Outcomes.fetchOutcome =
      FetchOutcome.respJson 500 (Json.obj [("error", Json.str "boom")]) ∧
    (handleSendMessage feedbackState "accept" fetch500Outcomes).state.messages.filter
        (fun m => m.mid = "error-detailed-plan-") = [] ∧
    (handleSendMessage feedbackState "accept" fetch500Outcomes).state.messages.filter
        (fun m => m.mid = "detailed-plan-") =
      [detailedPlanMessage (Json.obj [("error", Json.str "boom")])] ∧
    (handleSendMessage feedbackState "accept" fetch500Outcomes).state.chatPhase =
      "awaiting_idea" :=
  ⟨by decide, by decide, by decide, by decide⟩

/-- C2 (amended): an accept keyword with a stored plan posts exactly that
plan JSON to the detailed-plan endpoint and always finalizes and resets the
session (idea, answers, questions, question index and plan cleared, phase
back to `awaiting_idea`); on a network failure or a response body that fails
JSON parsing, the failure message is appended before the finalization
message; a response with a JSON body is surfaced as the detailed plan
whatever its HTTP status. -/
theorem C2_accept_posts_plan_and_always_resets (st : ChatState) (content : String)
    (o : SendOutcomes) (p : CurrentPlan)
    (h1 : st.chatPhase = "awaiting_plan_feedback") (h2 : st.currentPlan = some p)
    (h3 : jsTrimS content ≠ "")
    (h4 : containsAcceptKeyword (asciiLowerS content) = true) :
    (handleSendMessage st content o).calls = [ExtCall.detailedPlanPost p.json] ∧
    (handleSendMessage st content o).phaseTrace =
      ["fetching_detailed_plan", "awaiting_idea"] ∧
    (handleSendMessage st content o).state.chatPhase = "awaiting_idea" ∧
    (handleSendMessage st content o).state.currentProductIdea = none ∧
    (handleSendMessage st content o).state.answersFromUser = [] ∧
    (handleSendMessage st content o).state.questionsForUser = [] ∧
    (handleSendMessage st content o).state.currentQuestionIndex = 0 ∧
    (handleSendMessage st content o).state.currentPlan = none ∧
    (∀ eMsg, o.fetchOutcome = FetchOutcome.netFail eMsg →
      (handleSendMessage st content o).state.messages =
        st.messages ++ [userMessage content, loadingDetailedPlanMessage,
          detailedPlanErrorMessage eMsg, planFinalizedMessage]) ∧
    (∀ status eMsg, o.fetchOutcome = FetchOutcome.respBadBody status eMsg →
      (handleSendMessage st content o).state.messages =
        st.messages ++ [userMessage content, loadingDetailedPlanMessage,
          detailedPlanErrorMessage eMsg, planFinalizedMessage]) ∧
    (∀ status body, o.fetchOutcome = FetchOutcome.respJson status body →
      (handleSendMessage st content o).state.messages =
        (st.messages ++ [userMessage content]).filter
            (fun m => m.mid ≠ "loading-detailed-plan-") ++
          [detailedPlanMessage body, planFinalizedMessage]) := by
  cases hf : o.fetchOutcome with
  | netFail eMsg =>
    refine ⟨?_, ?_, ?_, ?_, ?_, ?_, ?_, ?_, ?_, ?_, ?_⟩ <;>
      simp [handleSendMessage, sendPlanFeedback, addMsg, removeMsg, h1, h2, h3, h4, hf]
  | respJson status body =>
    refine ⟨?_, ?_, ?_, ?_, ?_, ?_, ?_, ?_, ?_, ?_, ?_⟩ <;>
      simp [handleSendMessage, sendPlanFeedback, addMsg, removeMsg, h1, h2, h3, h4, hf,
            userMessage, loadingDetailedPlanMessage]
  | respBadBody status eMsg =>
    refine ⟨?_, ?_, ?_, ?_, ?_, ?_, ?_, ?_, ?_, ?_, ?_⟩ <;>
      simp [handleSendMessage, sendPlanFeedback, addMsg, removeMsg, h1, h2, h3, h4, hf]

/-- C2 witness: the amended theorem applied at the reachable `feedbackState`
with feedback `"accept"` and a network failure. -/
theorem C2_accept_posts_plan_and_always_resets_witness :
    (handleSendMessage feedbackState "accept" fetchFailOutcomes).calls =
      [ExtCall.detailedPlanPost (Json.obj [("productName", Json.str "Todo")])] ∧
    (handleSendMessage feedbackState "accept" fetchFailOutcomes).state.chatPhase =
      "awaiting_idea" ∧
    (handleSendMessage feedbackState "accept" fetchFailOutcomes).state.messages =
      feedbackState.messages ++ [userMessage "accept", loadingDetailedPlanMessage,
        detailedPlanErrorMessage "Network down", planFinalizedMessage] := by
  have h := C2_accept_posts_plan_and_always_resets feedbackState "accept" fetchFailOutcomes
    { text := "Plan text", json := Json.obj [("productName", Json.str "Todo")] }
    (by decide) (by decide) (by decide) (by decide)
  exact ⟨h.1, h.2.2.1, h.2.2.2.2.2.2.2.2.1 "Network down" rfl⟩

/-- C3: the spec claims `extractPlan` on the example input returns text
`"Summary here."` and the parsed object `{a:1}`.  The primary regular
expression is written with doubled backslashes, so it only matches subjects
containing literal backslash characters and never matches this input (nor
does the fallback); the whole input becomes the plan text and the JSON
defaults to the empty object.  The second conjunct records that this differs
from the claimed pair. -/
theorem C3_fenced_json_block_not_extracted :
    parsePlanFromGeminiResponse c3response =
      Except.ok { planText := c3input, planJson := Json.obj [] } ∧
    ({ planText := c3input, planJson := Json.obj [] } : PlanPair) ≠
      { planText := "Summary here.", planJson := Json.obj [("a", Json.num "1")] } :=
  ⟨rfl, by decide⟩

/-- C4: whenever the candidate JSON string fails to parse, extraction
returns the plan text paired with the error-marker object (`error`,
`details`, `originalJsonString`) if the plan text is non-empty, and fails
with the hard error otherwise. -/
theorem C4_unparseable_candidate_soft_or_hard (ct : String)
    (h : parseJson (extractPlanParts ct).2 = none) :
    ((extractPlanParts ct).1 ≠ "" →
      parsePlanCore ct =
        Except.ok { planText := (extractPlanParts ct).1,
                    planJson := planParseErrorJson (extractPlanParts ct).2 }) ∧
    ((extractPlanParts ct).1 = "" → parsePlanCore ct = Except.error hardFailureMsg) := by
  constructor <;> intro hp <;> simp [parsePlanCore, h, hp]

/-- C4 witness: the theorem applied at `bsNote`, an input whose primary-pass
capture is the non-JSON string of characters `\ { \ \ \ }` with non-empty
preceding text `"Note"`: the result is the soft error-marker pair. -/
theorem C4_unparseable_candidate_soft_or_hard_witness :
    (extractPlanParts bsNote).1 = "Note" ∧
    parseJson (extractPlanParts bsNote).2 = none ∧
    parsePlanCore bsNote =
      Except.ok { planText := (extractPlanParts bsNote).1,
                  planJson := planParseErrorJson (extractPlanParts bsNote).2 } := by
  refine ⟨by decide, by decide, ?_⟩
  exact (C4_unparseable_candidate_soft_or_hard bsNote (by decide)).1 (by decide)

/-- C5: the spec claims the `(Question N of M) ` progress prefix is stripped
before the answer is keyed.  The replace pattern is written with doubled
backslashes, so it requires literal backslash characters and letters `d` and
never matches the actual question content; the stored key keeps the
progress prefix. -/
theorem C5_answer_key_keeps_progress_label :
    (handleAnswerSelect sIdea.state "question-0" "(Question 1 of 2) Is it mobile-first?"
        true (Except.error "")).state.answersFromUser =
      [("(Question 1 of 2) Is it mobile-first?", true)] ∧
    replaceFirstEmpty questionProgressPattern "(Question 1 of 2) Is it mobile-first?" =
      "(Question 1 of 2) Is it mobile-first?" :=
  ⟨by decide, by decide⟩

/-- C6: the spec claims every reachable phase is one of the eight `ChatPhase`
values.  Accepting a stored plan passes `fetching_detailed_plan` — a ninth
string, contradicting the component's own `ChatPhase` union type — to
`setChatPhase` (line 1091).  `feedbackState` is reachable from
`initialChatState` via `sIdea`, `sAnswer1`, `sPlanReady`. -/
theorem C6_accept_reaches_undeclared_phase :
    "fetching_detailed_plan" ∈
      (handleSendMessage feedbackState "accept" fetch200Outcomes).phaseTrace ∧
    "fetching_detailed_plan" ∉ chatPhaseValues ∧
    feedbackState.chatPhase ∈ chatPhaseValues :=
  ⟨by decide, by decide, by decide⟩

/-- C7 counterexample: the claim says every idea of trimmed length below 15
gets a guidance message.  A whitespace-only submission satisfies the length
bound but returns at the `!messageContent.trim()` guard before anything is
emitted. -/
theorem C7_counterexample_whitespace_idea_silent :
    handleSendMessage initialChatState "   " noCallOutcomes =
      { state := initialChatState, calls := [], phaseTrace := [] } ∧
    initialChatState.chatPhase = "awaiting_idea" ∧ (jsTrimS "   ").length < 15 :=
  ⟨by decide, by decide, by decide⟩

/-- C7 (amended): every idea whose trimmed form is non-empty and shorter
than 15 characters, submitted in `awaiting_idea`, is rejected as too vague:
only the echoed user message and the guidance message are appended, no
external call is made, the phase is not set, and no other session field
changes. -/
theorem C7_short_nonempty_idea_rejected_vague (st : ChatState) (content : String)
    (o : SendOutcomes)
    (h1 : st.chatPhase = "awaiting_idea") (h2 : jsTrimS content ≠ "")
    (h3 : (jsTrimS content).length < 15) :
    handleSendMessage st content o =
      { state := { st with messages :=
          st.messages ++ [userMessage content, promptElaborationMessage] },
        calls := [], phaseTrace := [] } := by
  simp [handleSendMessage, sendAwaitingIdea, addMsg, h1, h2, h3]

/-- C7 witness: the amended theorem applied to the 8-character idea
`"todo app"` at the initial state. -/
theorem C7_short_nonempty_idea_rejected_vague_witness :
    handleSendMessage initialChatState "todo app" noCallOutcomes =
      { state := { initialChatState with messages :=
          initialChatState.messages ++ [userMessage "todo app", promptElaborationMessage] },
        calls := [], phaseTrace := [] } :=
  C7_short_nonempty_idea_rejected_vague initialChatState "todo app" noCallOutcomes
    (by decide) (by decide) (by decide)

/-- C8 counterexample: the claim says any idea containing `blockchain` is
rejected as too complex.  The vagueness check runs first: the bare
10-character idea `"blockchain"` gets the too-vague guidance message, not
the too-complex one. -/
theorem C8_counterexample_bare_blockchain_rejected_vague :
    handleSendMessage initialChatState "blockchain" noCallOutcomes =
      { state := { initialChatState with messages :=
          initialChatState.messages ++ [userMessage "blockchain", promptElaborationMessage] },
        calls := [], phaseTrace := [] } ∧
    containsS (asciiLowerS "blockchain") "blockchain" = true :=
  ⟨by decide, by decide⟩

/-- C8 (amended): every idea that passes the vagueness gate (trimmed length
at least 15) and whose lower-cased text contains `blockchain` is rejected as
too complex (the complexity-keyword pass, which runs before the large-scale
pass, fires): only the echoed user message and the too-complex message are
appended, no external call is made, and no session field changes.  Ideas
shorter than 15 trimmed characters are instead rejected as too vague even
when they contain `blockchain`. -/
theorem C8_blockchain_past_vague_gate_rejected_complex (st : ChatState)
    (content : String) (o : SendOutcomes)
    (h1 : st.chatPhase = "awaiting_idea")
    (h2 : 15 ≤ (jsTrimS content).length)
    (h3 : containsS (asciiLowerS content) "blockchain" = true) :
    handleSendMessage st content o =
      { state := { st with messages :=
          st.messages ++ [userMessage content, complexIdeaMessage] },
        calls := [], phaseTrace := [] } := by
  have hne : jsTrimS content ≠ "" := by
    intro h
    rw [h] at h2
    simp [String.length] at h2
  have hlow : 15 ≤ (asciiLowerS content).data.length := by
    have hc := trimChars_length_le content.data
    have htrim : (jsTrimS content).length = (trimChars content.data).length := rfl
    rw [asciiLowerS_length]
    omega
  have hhi : ¬ (asciiLowerS content = "hi") := by
    intro h; rw [h] at hlow; simp at hlow
  have hhello : ¬ (asciiLowerS content = "hello") := by
    intro h; rw [h] at hlow; simp at hlow
  have hhey : ¬ (asciiLowerS content = "hey") := by
    intro h; rw [h] at hlow; simp at hlow
  have hyo : ¬ (asciiLowerS content = "yo") := by
    intro h; rw [h] at hlow; simp at hlow
  have hnlt : ¬ ((jsTrimS content).length < 15) := by omega
  have hany : complexityKeywords.any (fun k => containsS (asciiLowerS content) k) = true :=
    List.any_eq_true.mpr ⟨"blockchain", by decide, h3⟩
  simp [handleSendMessage, sendAwaitingIdea, addMsg, h1, hne, hnlt, hhi, hhello,
        hhey, hyo, hany]

/-- C8 witness: the amended theorem applied to the 28-character idea
`"a Blockchain app for artists"` at the initial state. -/
theorem C8_blockchain_past_vague_gate_rejected_complex_witness :
    handleSendMessage initialChatState "a Blockchain app for artists" noCallOutcomes =
      { state := { initialChatState with messages :=
          initialChatState.messages ++
            [userMessage "a Blockchain app for artists", complexIdeaMessage] },
        calls := [], phaseTrace := [] } :=
  C8_blockchain_past_vague_gate_rejected_complex initialChatState
    "a Blockchain app for artists" noCallOutcomes (by decide) (by decide) (by decide)

/-- C9 counterexample: the claim says recording an answer when the question
list is exhausted is a session no-op.  At the reachable exhausted state
`feedbackState` (index 2 of 2), another answer increments the index to 3,
changes the answer map, and triggers the plan-synthesis call again. -/
theorem C9_counterexample_exhausted_answer_mutates :
    feedbackState.currentQuestionIndex = 2 ∧
    feedbackState.totalQuestionsCount = 2 ∧
    (handleAnswerSelect feedbackState "question-1"
        "(Question 2 of 2) Should it sync across devices?" true
        (Except.ok scenarioPlanPair)).state.currentQuestionIndex = 3 ∧
    (handleAnswerSelect feedbackState "question-1"
        "(Question 2 of 2) Should it sync across devices?" true
        (Except.ok scenarioPlanPair)).state.answersFromUser ≠
      feedbackState.answersFromUser ∧
    (handleAnswerSelect feedbackState "question-1"
        "(Question 2 of 2) Should it sync across devices?" true
        (Except.ok scenarioPlanPair)).calls ≠ [] :=
  ⟨by decide, by decide, by decide, by decide, by decide⟩

/-- C9 (amended): recording an answer when the question list is exhausted is
not a no-op: the answer is still stored under the (unstripped, trimmed)
question text and `questionIndex` is incremented by exactly 1; when no idea
is stored nothing further is triggered, and when an idea is stored the
plan-synthesis call is triggered again. -/
theorem C9_exhausted_answer_still_records (st : ChatState) (qid content : String)
    (b : Bool) (o : Except String PlanPair)
    (h : st.totalQuestionsCount ≤ st.currentQuestionIndex) :
    (handleAnswerSelect st qid content b o).state.currentQuestionIndex =
        st.currentQuestionIndex + 1 ∧
    (handleAnswerSelect st qid content b o).state.answersFromUser =
      objSet st.answersFromUser
        (jsTrimS (replaceFirstEmpty questionProgressPattern content)) b ∧
    (ideaTruthy st.currentProductIdea = false →
      (handleAnswerSelect st qid content b o).calls = [] ∧
      (handleAnswerSelect st qid content b o).phaseTrace = []) ∧
    (ideaTruthy st.currentProductIdea = true →
      (handleAnswerSelect st qid content b o).calls =
        [ExtCall.generatePlan (st.currentProductIdea.getD "")
          (objSet st.answersFromUser
            (jsTrimS (replaceFirstEmpty questionProgressPattern content)) b)]) := by
  have hlt : ¬ (st.currentQuestionIndex + 1 < st.totalQuestionsCount) := by omega
  have hge : st.totalQuestionsCount ≤ st.currentQuestionIndex + 1 := by omega
  cases hIdea : ideaTruthy st.currentProductIdea with
  | false =>
    refine ⟨?_, ?_, ?_, ?_⟩ <;> simp [handleAnswerSelect, hlt, hIdea]
  | true =>
    cases o with
    | ok pp =>
      refine ⟨?_, ?_, ?_, ?_⟩ <;>
        simp [handleAnswerSelect, hlt, hge, hIdea, addMsg, removeMsg]
    | error e =>
      refine ⟨?_, ?_, ?_, ?_⟩ <;>
        simp [handleAnswerSelect, hlt, hge, hIdea, addMsg, removeMsg]

/-- C9 witness: the amended theorem applied at the exhausted reachable state
`feedbackState` with a repeated answer to the second question. -/
theorem C9_exhausted_answer_still_records_witness :
    (handleAnswerSelect feedbackState "question-1"
        "(Question 2 of 2) Should it sync across devices?" true
        (Except.ok scenarioPlanPair)).state.currentQuestionIndex =
      feedbackState.currentQuestionIndex + 1 ∧
    (handleAnswerSelect feedbackState "question-1"
        "(Question 2 of 2) Should it sync across devices?" true
        (Except.ok scenarioPlanPair)).state.answersFromUser =
      objSet feedbackState.answersFromUser
        (jsTrimS (replaceFirstEmpty questionProgressPattern
          "(Question 2 of 2) Should it sync across devices?")) true := by
  have h := C9_exhausted_answer_still_records feedbackState "question-1"
    "(Question 2 of 2) Should it sync across devices?" true
    (Except.ok scenarioPlanPair) (by decide)
  exact ⟨h.1, h.2.1⟩

/-- C10: in `awaiting_plan_feedback`, an accept keyword with no stored plan
only appends the no-plan notice after the echoed user message: the endpoint
is not called, no phase is set, and no session field changes. -/
theorem C10_accept_without_plan_only_notice (st : ChatState) (content : String)
    (o : SendOutcomes)
    (h1 : st.chatPhase = "awaiting_plan_feedback") (h2 : st.currentPlan = none)
    (h3 : jsTrimS content ≠ "")
    (h4 : containsAcceptKeyword (asciiLowerS content) = true) :
    handleSendMessage st content o =
      { state := { st with messages := st.messages ++ [userMessage content, noPlanMessage] },
        calls := [], phaseTrace := [] } := by
  simp [handleSendMessage, sendPlanFeedback, addMsg, h1, h2, h3, h4]

/-- C10 witness: the theorem applied at the reachable feedback state with
its plan removed and the feedback `"accept"`. -/
theorem C10_accept_without_plan_only_notice_witness :
    handleSendMessage noPlanFeedbackState "accept" fetch200Outcomes =
      { state := { noPlanFeedbackState with messages :=
          noPlanFeedbackState.messages ++ [userMessage "accept", noPlanMessage] },
        calls := [], phaseTrace := [] } :=
  C10_accept_without_plan_only_notice noPlanFeedbackState "accept" fetch200Outcomes
    (by decide) (by decide) (by decide) (by decide)
